import Mathlib

/-!
Verification of the CDP browser provider
(`src/browser-providers/cdp.ts`, class `CDPBrowserProvider`).

The class is a thin adapter over Playwright's `chromium.connectOverCDP`.
We embed it shallowly: the provider's fields become a Lean structure, the
external library calls (`connectOverCDP`, `Browser#close`) become oracle
functions passed to each operation, and every operation additionally
returns the list of external calls it performed, so that "the underlying
call is never invoked" is expressible as an empty trace.  JavaScript
`throw` becomes `Except.error` carrying the error message string;
the `null` sentinel of `getSession` becomes `Option.none`.
-/

/-- Opaque handle to a connected browser (Playwright `Browser`).  Distinct
numbers stand for distinct runtime objects, so equality of handles models
reference equality of the JavaScript objects. -/
abbrev Browser := Nat

/-- The pass-through options bag, `Omit<ConnectOverCDPOptions, "endpointURL">`.
Only fields the examples actually use; the provider never inspects it. -/
structure CDPConnectOptions where
  timeout : Option Nat
  slowMo : Option Nat
deriving Repr, DecidableEq

/-- JavaScript `String.prototype.startsWith(pre)` (with no position
argument): the characters of `pre` are an initial segment of the
characters of `s`. -/
def jsStartsWith (s pre : String) : Bool :=
  pre.data.isPrefixOf s.data

/-- `CDPBrowserConfig` from cdp.ts: endpoint string, optional options bag,
optional debug flag. -/
structure CDPBrowserConfig where
  wsEndpoint : String
  options : Option CDPConnectOptions
  debug : Option Bool
deriving Repr, DecidableEq

/-- The default constructor argument in cdp.ts:
`config: CDPBrowserConfig = { wsEndpoint: "" }`. -/
def defaultCDPBrowserConfig : CDPBrowserConfig :=
  { wsEndpoint := "", options := none, debug := none }

/-- The fields of a `CDPBrowserProvider` instance. -/
structure CDPBrowserProvider where
  wsEndpoint : String
  options : Option CDPConnectOptions
  session : Option Browser
  debug : Bool
deriving Repr, DecidableEq

/-- A call made to the external browser-control library. -/
inductive NetworkCall where
  | connect (endpointURL : String) (options : Option CDPConnectOptions)
  | closeBrowser (b : Browser)
deriving Repr, DecidableEq

/-- The constructor of `CDPBrowserProvider`: throws when `config.wsEndpoint`
is falsy (the empty string, given its type), otherwise copies the config
into the fields, with `debug` defaulting to `false` (`config.debug ?? false`).
The constructor makes no external calls, hence the empty trace. -/
def CDPBrowserProvider.construct (config : CDPBrowserConfig) :
    Except String CDPBrowserProvider × List NetworkCall :=
  if config.wsEndpoint = "" then
    (.error "CDP wsEndpoint is required but was not provided", [])
  else
    (.ok { wsEndpoint := config.wsEndpoint
           options := config.options
           session := none
           debug := config.debug.getD false }, [])

/-- `start()`: validates that the endpoint starts with `ws://` or `wss://`
(throwing the format error without touching the network otherwise), then
performs one `connectOverCDP` call; on success stores the browser in
`session` and returns it, on failure rethrows with the endpoint and the
original cause message embedded.  `connectOverCDP` is the oracle standing
for `chromium.connectOverCDP`, keyed by endpoint URL and options. -/
def CDPBrowserProvider.start (self : CDPBrowserProvider)
    (connectOverCDP : String → Option CDPConnectOptions → Except String Browser) :
    Except String Browser × CDPBrowserProvider × List NetworkCall :=
  if !(jsStartsWith self.wsEndpoint "ws://") && !(jsStartsWith self.wsEndpoint "wss://") then
    (.error ("Invalid CDP WebSocket endpoint format: " ++ self.wsEndpoint ++
      ". Must start with ws:// or wss://"), self, [])
  else
    match connectOverCDP self.wsEndpoint self.options with
    | .ok browser =>
      (.ok browser, { self with session := some browser },
        [.connect self.wsEndpoint self.options])
    | .error msg =>
      (.error ("Failed to connect to CDP WebSocket endpoint: " ++ self.wsEndpoint ++
        ". " ++ msg), self, [.connect self.wsEndpoint self.options])

/-- `close()`: `await this.session?.close()` — optional chaining, so the
external close is invoked only when a session exists; any error from it
propagates unchanged.  Note the source does NOT clear `this.session`. -/
def CDPBrowserProvider.close (self : CDPBrowserProvider)
    (browserClose : Browser → Except String Unit) :
    Except String Unit × CDPBrowserProvider × List NetworkCall :=
  match self.session with
  | none => (.ok (), self, [])
  | some b =>
    match browserClose b with
    | .ok _ => (.ok (), self, [.closeBrowser b])
    | .error msg => (.error msg, self, [.closeBrowser b])

/-- `getSession()`: returns `null` when no session is stored, the stored
session otherwise. -/
def CDPBrowserProvider.getSession (self : CDPBrowserProvider) : Option Browser :=
  match self.session with
  | none => none
  | some s => some s

/-! Concrete sample data used by the witnesses and the counterexample. -/

/-- A provider with a well-formed endpoint and no session. -/
def sampleProvider : CDPBrowserProvider :=
  { wsEndpoint := "ws://localhost:9222/devtools/browser"
    options := none
    session := none
    debug := false }

/-- A provider that already holds a session handle. -/
def sampleProviderWithSession : CDPBrowserProvider :=
  { sampleProvider with session := some 5 }

/-- A provider whose endpoint lacks the `ws://`/`wss://` scheme. -/
def badSchemeProvider : CDPBrowserProvider :=
  { wsEndpoint := "http://localhost:9222"
    options := none
    session := none
    debug := false }

/-- An oracle for a reachable endpoint handing out browser handle 7. -/
def connOk7 : String → Option CDPConnectOptions → Except String Browser :=
  fun _ _ => .ok 7

/-- An oracle for a reachable endpoint handing out browser handle 8. -/
def connOk8 : String → Option CDPConnectOptions → Except String Browser :=
  fun _ _ => .ok 8

/-- An oracle for an unreachable endpoint. -/
def connRefused : String → Option CDPConnectOptions → Except String Browser :=
  fun _ _ => .error "connect ECONNREFUSED 127.0.0.1:9222"

/-- A close oracle that succeeds. -/
def closeOk : Browser → Except String Unit :=
  fun _ => .ok ()

/-- A close oracle that fails. -/
def closeRefused : Browser → Except String Unit :=
  fun _ => .error "Target page, context or browser has been closed"

/-! Shared helper lemmas about `start` and `close`. -/

/-- Helper: a successful `start` stores the returned handle in `session`. -/
theorem start_ok_session_eq
    (p : CDPBrowserProvider)
    (conn : String → Option CDPConnectOptions → Except String Browser)
    (b : Browser)
    (h : (p.start conn).1 = .ok b) :
    (p.start conn).2.1.session = some b := by
  unfold CDPBrowserProvider.start at h ⊢
  cases hw : (!(jsStartsWith p.wsEndpoint "ws://") &&
      !(jsStartsWith p.wsEndpoint "wss://")) with
  | true => simp [hw] at h
  | false =>
    cases hc : conn p.wsEndpoint p.options with
    | ok browser =>
      rw [hc] at h
      simp [hw] at h ⊢
      exact h
    | error msg =>
      rw [hc] at h
      simp [hw] at h

/-- Helper: `getSession` reads back the `session` field. -/
theorem getSession_eq_session (p : CDPBrowserProvider) :
    p.getSession = p.session := by
  unfold CDPBrowserProvider.getSession
  cases p.session <;> rfl

/-- Helper: `close` never changes the provider's fields (in particular it
does not clear `session`). -/
theorem close_state_eq
    (p : CDPBrowserProvider) (bc : Browser → Except String Unit) :
    (p.close bc).2.1 = p := by
  unfold CDPBrowserProvider.close
  cases hs : p.session with
  | none => simp [hs]
  | some b =>
    cases hc : bc b with
    | ok u => simp [hs, hc]
    | error m => simp [hs, hc]

/-! Theorems for the claims. -/

/-- C1: whenever `start()` succeeds and returns a browser handle, the
provider's `session` field holds exactly that handle and a subsequent
`getSession()` returns the same handle (in the embedding, equality of
`Browser` values models reference equality of the runtime objects). -/
theorem start_success_stores_and_returns_session
    (p : CDPBrowserProvider)
    (conn : String → Option CDPConnectOptions → Except String Browser)
    (b : Browser)
    (h : (p.start conn).1 = .ok b) :
    (p.start conn).2.1.session = some b ∧
      (p.start conn).2.1.getSession = some b := by
  have hs := start_ok_session_eq p conn b h
  exact ⟨hs, by rw [getSession_eq_session, hs]⟩

/-- Witness for C1 at a concrete provider and oracle. -/
theorem start_success_stores_and_returns_session_witness :
    (sampleProvider.start connOk7).2.1.session = some 7 ∧
      (sampleProvider.start connOk7).2.1.getSession = some 7 :=
  start_success_stores_and_returns_session sampleProvider connOk7 7 (by rfl)

/-- C2: when the endpoint is well-formed but the underlying connect call
fails with message `msg`, `start()` throws an error whose message contains
the attempted endpoint string and embeds `msg`, the cause's original
message (containment stated as decompositions into concatenations). -/
theorem start_connect_failure_error_message
    (p : CDPBrowserProvider)
    (conn : String → Option CDPConnectOptions → Except String Browser)
    (msg : String)
    (hw : (!(jsStartsWith p.wsEndpoint "ws://") &&
      !(jsStartsWith p.wsEndpoint "wss://")) = false)
    (hc : conn p.wsEndpoint p.options = .error msg) :
    ∃ err, (p.start conn).1 = .error err ∧
      (∃ a c, err = a ++ p.wsEndpoint ++ c) ∧
      (∃ d, err = d ++ msg) := by
  refine ⟨"Failed to connect to CDP WebSocket endpoint: " ++ p.wsEndpoint ++
    ". " ++ msg, ?_, ?_, ?_⟩
  · unfold CDPBrowserProvider.start
    simp [hw, hc]
  · exact ⟨"Failed to connect to CDP WebSocket endpoint: ", ". " ++ msg,
      by rw [String.append_assoc]⟩
  · exact ⟨"Failed to connect to CDP WebSocket endpoint: " ++ p.wsEndpoint ++ ". ",
      rfl⟩

/-- Witness for C2 at a concrete provider and failing oracle. -/
theorem start_connect_failure_error_message_witness :
    ∃ err, (sampleProvider.start connRefused).1 = .error err ∧
      (∃ a c, err = a ++ sampleProvider.wsEndpoint ++ c) ∧
      (∃ d, err = d ++ "connect ECONNREFUSED 127.0.0.1:9222") :=
  start_connect_failure_error_message sampleProvider connRefused
    "connect ECONNREFUSED 127.0.0.1:9222" (by decide) rfl

/-- C3: when the endpoint begins with neither `ws://` nor `wss://`,
`start()` throws the format error and makes no external call at all (the
trace of library calls is empty, so the connect oracle is never invoked). -/
theorem start_bad_scheme_format_error_no_connect
    (p : CDPBrowserProvider)
    (conn : String → Option CDPConnectOptions → Except String Browser)
    (hw : (!(jsStartsWith p.wsEndpoint "ws://") &&
      !(jsStartsWith p.wsEndpoint "wss://")) = true) :
    (p.start conn).1 = .error ("Invalid CDP WebSocket endpoint format: " ++
      p.wsEndpoint ++ ". Must start with ws:// or wss://") ∧
      (p.start conn).2.2 = [] := by
  unfold CDPBrowserProvider.start
  simp [hw]

/-- Witness for C3 at a concrete provider with an `http://` endpoint. -/
theorem start_bad_scheme_format_error_no_connect_witness :
    (badSchemeProvider.start connOk7).1 =
      .error ("Invalid CDP WebSocket endpoint format: " ++
        badSchemeProvider.wsEndpoint ++ ". Must start with ws:// or wss://") ∧
      (badSchemeProvider.start connOk7).2.2 = [] :=
  start_bad_scheme_format_error_no_connect badSchemeProvider connOk7 (by decide)

/-- C4: construction from a config with an empty endpoint — including the
no-argument call, whose default config has the empty endpoint — throws the
configuration error and performs no external call (empty trace; the
constructor is a pure function of the config). -/
theorem construct_empty_endpoint_configuration_error
    (config : CDPBrowserConfig)
    (h : config.wsEndpoint = "") :
    CDPBrowserProvider.construct config =
      (.error "CDP wsEndpoint is required but was not provided", []) ∧
    CDPBrowserProvider.construct defaultCDPBrowserConfig =
      (.error "CDP wsEndpoint is required but was not provided", []) := by
  constructor
  · unfold CDPBrowserProvider.construct
    simp [h]
  · rfl

/-- Witness for C4 at a concrete config with an empty endpoint. -/
theorem construct_empty_endpoint_configuration_error_witness :
    CDPBrowserProvider.construct
      { wsEndpoint := "", options := some { timeout := some 10000, slowMo := none },
        debug := some true } =
      (.error "CDP wsEndpoint is required but was not provided", []) ∧
    CDPBrowserProvider.construct defaultCDPBrowserConfig =
      (.error "CDP wsEndpoint is required but was not provided", []) :=
  construct_empty_endpoint_configuration_error
    { wsEndpoint := "", options := some { timeout := some 10000, slowMo := none },
      debug := some true } rfl

/-- C5 counterexample: after a successful `start()` (handle 7) followed by a
successful `close()`, the provider STILL holds the session handle — the
source never clears `this.session`, contradicting the claim that the
reference is cleared at close time. -/
theorem close_clears_session_counterexample :
    (((sampleProvider.start connOk7).2.1.close closeOk).2.1.session = some 7) ∧
      (((sampleProvider.start connOk7).2.1.close closeOk).2.1.session ≠ none) := by
  decide

/-- C5 (amended): the session reference is written by a successful `start()`
at connect time, but `close()` does not clear it: after a `close()` following
a successful `start()`, the provider still holds the same session handle. -/
theorem session_written_at_start_not_cleared_at_close
    (p : CDPBrowserProvider)
    (conn : String → Option CDPConnectOptions → Except String Browser)
    (bc : Browser → Except String Unit)
    (b : Browser)
    (h : (p.start conn).1 = .ok b) :
    (p.start conn).2.1.session = some b ∧
      ((p.start conn).2.1.close bc).2.1.session = some b := by
  have hs := start_ok_session_eq p conn b h
  exact ⟨hs, by rw [close_state_eq, hs]⟩

/-- Witness for the amended C5 at a concrete provider and oracles. -/
theorem session_written_at_start_not_cleared_at_close_witness :
    (sampleProvider.start connOk7).2.1.session = some 7 ∧
      ((sampleProvider.start connOk7).2.1.close closeOk).2.1.session = some 7 :=
  session_written_at_start_not_cleared_at_close sampleProvider connOk7 closeOk 7
    (by rfl)

/-- C6: calling `start()` twice issues two independent connection attempts —
the second call performs its connect call even though a session is already
stored (no guard) — and when both succeed the stored session and
`getSession()` are the handle from the second attempt. -/
theorem start_twice_two_attempts_second_wins
    (p : CDPBrowserProvider)
    (conn1 conn2 : String → Option CDPConnectOptions → Except String Browser)
    (b1 b2 : Browser)
    (hw : (!(jsStartsWith p.wsEndpoint "ws://") &&
      !(jsStartsWith p.wsEndpoint "wss://")) = false)
    (hc1 : conn1 p.wsEndpoint p.options = .ok b1)
    (hc2 : conn2 p.wsEndpoint p.options = .ok b2) :
    (p.start conn1).2.2 = [.connect p.wsEndpoint p.options] ∧
      ((p.start conn1).2.1.start conn2).2.2 = [.connect p.wsEndpoint p.options] ∧
      ((p.start conn1).2.1.start conn2).2.1.session = some b2 ∧
      ((p.start conn1).2.1.start conn2).2.1.getSession = some b2 := by
  have h1 : p.start conn1 = (.ok b1, { p with session := some b1 },
      [.connect p.wsEndpoint p.options]) := by
    unfold CDPBrowserProvider.start
    simp [hw, hc1]
  have h2 : ({ p with session := some b1 } : CDPBrowserProvider).start conn2 =
      (.ok b2, { p with session := some b2 },
        [.connect p.wsEndpoint p.options]) := by
    unfold CDPBrowserProvider.start
    simp [hw, hc2]
  rw [h1]
  refine ⟨rfl, ?_, ?_, ?_⟩ <;> simp [h2, getSession_eq_session]

/-- Witness for C6: handles 7 then 8; the second attempt overwrites. -/
theorem start_twice_two_attempts_second_wins_witness :
    (sampleProvider.start connOk7).2.2 =
      [.connect sampleProvider.wsEndpoint sampleProvider.options] ∧
      ((sampleProvider.start connOk7).2.1.start connOk8).2.2 =
        [.connect sampleProvider.wsEndpoint sampleProvider.options] ∧
      ((sampleProvider.start connOk7).2.1.start connOk8).2.1.session = some 8 ∧
      ((sampleProvider.start connOk7).2.1.start connOk8).2.1.getSession = some 8 :=
  start_twice_two_attempts_second_wins sampleProvider connOk7 connOk8 7 8
    (by decide) rfl rfl

/-- C7: when no session is stored (no successful `start()` has occurred),
`close()` returns successfully (does not throw), leaves the provider
unchanged, and never invokes the underlying close (empty trace). -/
theorem close_without_session_noop
    (p : CDPBrowserProvider)
    (bc : Browser → Except String Unit)
    (h : p.session = none) :
    p.close bc = (.ok (), p, []) := by
  unfold CDPBrowserProvider.close
  simp [h]

/-- Witness for C7: closing a fresh provider, even with a failing close
oracle, succeeds with no external call. -/
theorem close_without_session_noop_witness :
    sampleProvider.close closeRefused = (.ok (), sampleProvider, []) :=
  close_without_session_noop sampleProvider closeRefused rfl

/-- C8: `getSession()` never throws — it is a total function into
`Option Browser` with no error outcome — returning the stored handle when
one exists and the no-session sentinel (`none`, modelling `null`) when
none was established. -/
theorem getSession_total_sentinel
    (p : CDPBrowserProvider) :
    (p.session = none → p.getSession = none) ∧
      (∀ b : Browser, p.session = some b → p.getSession = some b) := by
  rw [getSession_eq_session]
  exact ⟨fun h => h, fun _ h => h⟩

/-- Witness for C8: both the no-session and the stored-session cases. -/
theorem getSession_total_sentinel_witness :
    sampleProvider.getSession = none ∧
      sampleProviderWithSession.getSession = some 5 :=
  ⟨(getSession_total_sentinel sampleProvider).1 rfl,
    (getSession_total_sentinel sampleProviderWithSession).2 5 rfl⟩

/-- C9: when a session exists and the underlying close fails with message
`msg`, `close()` propagates exactly that error — no catching, wrapping, or
suppression. -/
theorem close_failure_propagates_unchanged
    (p : CDPBrowserProvider)
    (bc : Browser → Except String Unit)
    (b : Browser) (msg : String)
    (hb : p.session = some b)
    (hc : bc b = .error msg) :
    (p.close bc).1 = .error msg := by
  unfold CDPBrowserProvider.close
  simp [hb, hc]

/-- Witness for C9 at a provider holding handle 5 and a failing close. -/
theorem close_failure_propagates_unchanged_witness :
    (sampleProviderWithSession.close closeRefused).1 =
      .error "Target page, context or browser has been closed" :=
  close_failure_propagates_unchanged sampleProviderWithSession closeRefused 5
    "Target page, context or browser has been closed" rfl rfl

/-- C10: when the underlying connect call fails, `start()` leaves the
stored session reference unchanged — the `session` field is assigned only
after a successful connect, so a failed `start()` never clobbers a
previously established session. -/
theorem start_failure_leaves_session_unchanged
    (p : CDPBrowserProvider)
    (conn : String → Option CDPConnectOptions → Except String Browser)
    (msg : String)
    (hc : conn p.wsEndpoint p.options = .error msg) :
    (p.start conn).2.1.session = p.session := by
  unfold CDPBrowserProvider.start
  by_cases hw : (!(jsStartsWith p.wsEndpoint "ws://") &&
      !(jsStartsWith p.wsEndpoint "wss://")) = true
  · simp [hw]
  · rw [Bool.not_eq_true] at hw
    simp [hw, hc]

/-- Witness for C10: a provider already holding handle 5 keeps it across a
failed `start()`. -/
theorem start_failure_leaves_session_unchanged_witness :
    (sampleProviderWithSession.start connRefused).2.1.session =
      sampleProviderWithSession.session :=
  start_failure_leaves_session_unchanged sampleProviderWithSession connRefused
    "connect ECONNREFUSED 127.0.0.1:9222" rfl
